import Mathlib

/-!
Shallow embedding of `acestep/apple_silicon_optimizer.py`.

The module reads the host environment (OS identity, machine architecture,
two `sysctl` subprocesses, the optional `torch` and `psutil` libraries,
`os.cpu_count()`, `os.environ`) and derives device / settings
recommendations.  We model one snapshot of that external state as `Env`
and translate each Python method into a function over it.  Python
exceptions are modelled with `Except PyExc`; a `try/except` block becomes
a `match` that converts the caught exception classes to the handler's
result and re-raises the rest.
-/

namespace AppleSiliconOpt

/-- Exception classes that can flow through this module. -/
inductive PyExc where
  | timeoutExpired
  | calledProcessError
  | fileNotFoundError
  | importError
  | valueError
  | typeError
deriving DecidableEq

/-- Outcome of one `subprocess.run` invocation: the process may hit the
5-second timeout (`TimeoutExpired`), the binary may be missing
(`FileNotFoundError`), or the process completes with an exit code and
captured stdout.  `subprocess.run` is called without `check=True`, so a
completed run never raises, whatever its exit code. -/
inductive SubprocOutcome where
  | timeout
  | fileNotFound
  | completed (exitCode : Nat) (stdout : String)
deriving DecidableEq

/-- Semantics of `subprocess.run(..., capture_output=True, timeout=5)`
without `check=True`: `CalledProcessError` is never raised. -/
def subprocRun : SubprocOutcome → Except PyExc (Nat × String)
  | .timeout => .error .timeoutExpired
  | .fileNotFound => .error .fileNotFoundError
  | .completed code out => .ok (code, out)

/-- What `import torch` exposes when the library is present. -/
structure TorchLib where
  mpsIsAvailable : Bool
  mpsIsBuilt : Bool
  cudaIsAvailable : Bool
deriving DecidableEq

/-- The process environment `os.environ`, as a partial map. -/
def Environ : Type := String → Option String

/-- One snapshot of the external state the module consults.  `torch = none`
and `psutilAvailableBytes = none` model `ImportError` on the respective
optional library; `psutilAvailableBytes` is
`psutil.virtual_memory().available`. -/
structure Env where
  system : String
  machine : String
  brandStringProbe : SubprocOutcome
  memsizeProbe : SubprocOutcome
  torch : Option TorchLib
  psutilAvailableBytes : Option Nat
  cpuCount : Option Nat

/- ---------- Python string primitives ---------- -/

/-- Characters removed by Python's `str.strip()`. -/
def isPySpace (c : Char) : Bool :=
  c = ' ' || c = '\t' || c = '\n' || c = '\r' || c = Char.ofNat 11 || c = Char.ofNat 12

/-- Python `str.strip()`. -/
def pyStrip (s : String) : String :=
  String.mk (((s.data.dropWhile isPySpace).reverse.dropWhile isPySpace).reverse)

/-- Python `str.lower()` (ASCII suffices for the strings this module meets). -/
def pyLower (s : String) : String :=
  String.mk (s.data.map Char.toLower)

/-- `pat` occurs at the start of `s`. -/
def charsStart : List Char → List Char → Bool
  | _, [] => true
  | [], _ :: _ => false
  | c :: cs, p :: ps => decide (c = p) && charsStart cs ps

/-- `pat` occurs somewhere in `s`. -/
def charsContain (pat : List Char) : List Char → Bool
  | [] => charsStart [] pat
  | c :: cs => charsStart (c :: cs) pat || charsContain pat cs

/-- Python `pat in s` on strings (substring containment). -/
def pyInStr (pat s : String) : Bool :=
  charsContain pat.data s.data

/-- Python `int(s)` restricted to the unsigned decimal strings a memory-size
probe can yield; any other input raises `ValueError` exactly as `int` does
on a non-numeric string. -/
def pyParseInt (s : String) : Except PyExc Nat :=
  match s.data with
  | [] => .error .valueError
  | _ :: _ =>
    if s.data.all Char.isDigit then
      .ok (s.data.foldl (fun acc c => acc * 10 + (c.toNat - 48)) 0)
    else .error .valueError

/- ---------- AppleSiliconOptimizer ---------- -/

/-- The two instance attributes set by `__init__` and never reassigned. -/
structure AppleSiliconOptimizer where
  is_apple_silicon : Bool
  mps_available : Bool
deriving DecidableEq

/-- Body of the `try` in `_detect_apple_silicon`: run
`sysctl -n machdep.cpu.brand_string`, then test
`"apple" in result.stdout.strip().lower()`. -/
def detectBody (env : Env) : Except PyExc Bool :=
  match subprocRun env.brandStringProbe with
  | .error e => .error e
  | .ok (_code, out) => .ok (pyInStr "apple" (pyLower (pyStrip out)))

/-- The exception classes named by the `except` clause of
`_detect_apple_silicon`. -/
def detectCaught : PyExc → Bool
  | .timeoutExpired => true
  | .calledProcessError => true
  | .fileNotFoundError => true
  | _ => false

/-- `AppleSiliconOptimizer._detect_apple_silicon`. -/
def detect_apple_silicon (env : Env) : Except PyExc Bool :=
  if env.system ≠ "Darwin" then .ok false
  else if pyLower env.machine = "arm64" then .ok true
  else
    match detectBody env with
    | .ok b => .ok b
    | .error e => if detectCaught e then .ok false else .error e

/-- `AppleSiliconOptimizer._check_mps_availability`; takes the already
computed `self.is_apple_silicon`. -/
def check_mps_availability (env : Env) (is_apple_silicon : Bool) :
    Except PyExc Bool :=
  if !is_apple_silicon then .ok false
  else
    match env.torch with
    | none => .ok false
    | some t => .ok (t.mpsIsAvailable && t.mpsIsBuilt)

/-- `AppleSiliconOptimizer.__init__`. -/
def AppleSiliconOptimizer.init (env : Env) :
    Except PyExc AppleSiliconOptimizer :=
  match detect_apple_silicon env with
  | .error e => .error e
  | .ok ias =>
    match check_mps_availability env ias with
    | .error e => .error e
    | .ok mps => .ok ⟨ias, mps⟩

/-- `AppleSiliconOptimizer._check_cuda_availability`: note that it attempts
`import torch` unconditionally (no architecture short-circuit). -/
def check_cuda_availability (env : Env) : Except PyExc Bool :=
  match env.torch with
  | none => .ok false
  | some t => .ok t.cudaIsAvailable

/-- `AppleSiliconOptimizer.get_optimal_device` (the Python default for
`prefer_mps` is `True`; callers here pass it explicitly). -/
def get_optimal_device (o : AppleSiliconOptimizer) (env : Env)
    (prefer_mps : Bool) : Except PyExc String :=
  if o.is_apple_silicon && prefer_mps && o.mps_available then .ok "mps"
  else
    match check_cuda_availability env with
    | .error e => .error e
    | .ok cuda => .ok (if cuda then "cuda" else "cpu")

/- ---------- Memory prober ---------- -/

/-- The dict returned by `get_memory_info`.  Each field is
`none` when the key is absent from the dict, `some none` when the key maps
to Python `None`, and `some (some n)` when it maps to the integer `n`. -/
structure MemoryInfo where
  total_gb : Option (Option Nat)
  available_gb : Option (Option Nat)
deriving DecidableEq

/-- Body of the `try` in `get_memory_info`: on Darwin read
`sysctl -n hw.memsize`, parse it and floor-divide by `1024 ** 3`; then
`import psutil` and record available memory in whole GiB. -/
def memoryBody (env : Env) : Except PyExc MemoryInfo :=
  let afterTotal : Except PyExc MemoryInfo :=
    if env.system = "Darwin" then
      match subprocRun env.memsizeProbe with
      | .error e => .error e
      | .ok (_code, out) =>
        match pyParseInt (pyStrip out) with
        | .error e => .error e
        | .ok total_bytes => .ok ⟨some (some (total_bytes / 1073741824)), none⟩
    else .ok ⟨none, none⟩
  match afterTotal with
  | .error e => .error e
  | .ok mi =>
    match env.psutilAvailableBytes with
    | none => .error .importError
    | some avail => .ok { mi with available_gb := some (some (avail / 1073741824)) }

/-- The exception classes named by the `except` clause of
`get_memory_info`. -/
def memoryCaught : PyExc → Bool
  | .timeoutExpired => true
  | .calledProcessError => true
  | .fileNotFoundError => true
  | .importError => true
  | .valueError => true
  | .typeError => false

/-- `AppleSiliconOptimizer.get_memory_info`: on any caught failure the
handler stores `None` under BOTH keys (so the keys are present, mapping to
`None`). -/
def get_memory_info (env : Env) : Except PyExc MemoryInfo :=
  match memoryBody env with
  | .ok mi => .ok mi
  | .error e => if memoryCaught e then .ok ⟨some none, some none⟩ else .error e

/- ---------- Settings advisor ---------- -/

/-- Python `memory_info.get("total_gb", 8)`: the default `8` applies only
when the key is absent; a key that is present and maps to `None` yields
`None`. -/
def dictGetTotalGb (mi : MemoryInfo) : Option Nat :=
  match mi.total_gb with
  | none => some 8
  | some v => v

/-- Python `a < b` where `a` may be `None`: comparing `None` with an `int`
raises `TypeError`. -/
def pyLtNat (a : Option Nat) (b : Nat) : Except PyExc Bool :=
  match a with
  | none => .error .typeError
  | some n => .ok (decide (n < b))

/-- Python `a // b` where `a` may be `None`: floor division of `None`
raises `TypeError`. -/
def pyFloordivNat (a : Option Nat) (b : Nat) : Except PyExc Nat :=
  match a with
  | none => .error .typeError
  | some n => .ok (n / b)

/-- The dict returned by `get_recommended_settings`. -/
structure RecommendedSettings where
  device : String
  offload_to_cpu : Bool
  offload_dit_to_cpu : Bool
  use_flash_attention : Bool
  backend : String
  batch_size : Nat
  precision : String
deriving DecidableEq

/-- `AppleSiliconOptimizer.get_recommended_settings`.  Expressions are
evaluated in source order: `total_gb < 32` (line 141) comes before the
dict literal, whose values run top to bottom. -/
def get_recommended_settings (o : AppleSiliconOptimizer) (env : Env) :
    Except PyExc RecommendedSettings :=
  match get_memory_info env with
  | .error e => .error e
  | .ok mi =>
    let total_gb := dictGetTotalGb mi
    match pyLtNat total_gb 32 with
    | .error e => .error e
    | .ok offload_to_cpu =>
      match get_optimal_device o env true with
      | .error e => .error e
      | .ok device =>
        match pyLtNat total_gb 16 with
        | .error e => .error e
        | .ok dit =>
          match pyFloordivNat total_gb 8 with
          | .error e => .error e
          | .ok q =>
            .ok { device := device
                  offload_to_cpu := offload_to_cpu
                  offload_dit_to_cpu := dit
                  use_flash_attention := false
                  backend := "pt"
                  batch_size := min 4 (max 1 q)
                  precision := if o.mps_available then "float16" else "float32" }

/- ---------- Environment applier ---------- -/

/-- `os.environ[k] = v`. -/
def setEnviron (e : Environ) (k v : String) : Environ :=
  fun q => if q = k then some v else e q

/-- Python `os.cpu_count() or 4`: `or` substitutes `4` when `cpu_count()`
is `None` (or the falsy `0`). -/
def cpuCountOr4 : Option Nat → Nat
  | none => 4
  | some n => if n = 0 then 4 else n

/-- `AppleSiliconOptimizer.apply_apple_silicon_optimizations`: a no-op
unless Apple Silicon was detected, otherwise writes the fixed table of
environment variables (the four thread-count entries share the value
`str(min(8, os.cpu_count() or 4))`). -/
def apply_apple_silicon_optimizations (o : AppleSiliconOptimizer) (env : Env)
    (environ : Environ) : Environ :=
  if !o.is_apple_silicon then environ
  else
    let threads := toString (min 8 (cpuCountOr4 env.cpuCount))
    let e := setEnviron environ "PYTORCH_ENABLE_MPS_FALLBACK" "1"
    let e := setEnviron e "PYTORCH_MPS_HIGH_WATERMARK_RATIO" "0.0"
    let e := setEnviron e "MALLOC_ARENA_MAX" "4"
    let e := setEnviron e "OMP_NUM_THREADS" threads
    let e := setEnviron e "MKL_NUM_THREADS" threads
    let e := setEnviron e "OPENBLAS_NUM_THREADS" threads
    let e := setEnviron e "VECLIB_MAXIMUM_THREADS" threads
    setEnviron e "TOKENIZERS_PARALLELISM" "false"

/-- Method-call view of `get_recommended_settings`: a call on an instance
also yields the instance as it stands after the call.  The method body
assigns no attribute of `self`, so the instance it leaves behind is the
one it was called on. -/
def get_recommended_settings_call (o : AppleSiliconOptimizer) (env : Env) :
    Except PyExc (RecommendedSettings × AppleSiliconOptimizer) :=
  match get_recommended_settings o env with
  | .error e => .error e
  | .ok s => .ok (s, o)

/- ---------- Closed forms and concrete environments ---------- -/

/-- What `_check_cuda_availability` reports, as a plain boolean of the
environment. -/
def cudaAvail (env : Env) : Bool :=
  match env.torch with
  | none => false
  | some t => t.cudaIsAvailable

/-- Closed form of the device decision table of `get_optimal_device`. -/
def deviceStr (o : AppleSiliconOptimizer) (env : Env) (prefer_mps : Bool) :
    String :=
  if o.is_apple_silicon && prefer_mps && o.mps_available then "mps"
  else if cudaAvail env then "cuda" else "cpu"

/-- An Apple Silicon Mac (16 GiB) on which `psutil` is not installed, so
the memory probe fails with `ImportError`. -/
def envDarwinNoPsutil : Env :=
  ⟨"Darwin", "arm64", .completed 0 "", .completed 0 "17179869184",
   some ⟨true, true, false⟩, none, some 8⟩

/-- An Apple Silicon Mac on which the `hw.memsize` subprocess hits its
5-second timeout, so the memory probe fails. -/
def envMemTimeout : Env :=
  ⟨"Darwin", "arm64", .completed 0 "", .timeout,
   some ⟨true, true, false⟩, some 17179869184, some 8⟩

/-- A non-Darwin host on which `torch` is installed and reports CUDA as
available. -/
def envLinuxCuda : Env :=
  ⟨"Linux", "x86_64", .completed 0 "", .completed 0 "",
   some ⟨false, false, true⟩, some 17179869184, some 8⟩

/-- A non-Darwin host without `torch`, with `psutil` installed. -/
def envLinux : Env :=
  ⟨"Linux", "x86_64", .completed 0 "", .completed 0 "",
   none, some 17179869184, some 16⟩

/-- An Apple Silicon Mac with 32 GiB of memory, successfully probed. -/
def env32 : Env :=
  ⟨"Darwin", "arm64", .completed 0 "", .completed 0 "34359738368",
   some ⟨true, true, false⟩, some 8589934592, some 8⟩

/-- An Apple Silicon Mac with 40 GiB of memory, successfully probed. -/
def env40 : Env :=
  ⟨"Darwin", "arm64", .completed 0 "", .completed 0 "42949672960",
   some ⟨true, true, false⟩, some 8589934592, some 8⟩

/-- An Intel Mac whose brand-string subprocess exits with status 1 while
still printing an Apple brand string on stdout. -/
def envBrandNonzeroExit : Env :=
  ⟨"Darwin", "x86_64", .completed 1 "Apple M2 Pro", .completed 0 "",
   none, none, none⟩

/-- An Intel Mac whose brand-string subprocess hits its timeout. -/
def envBrandTimeout : Env :=
  ⟨"Darwin", "x86_64", .timeout, .completed 0 "", none, none, none⟩

/-- The settings record computed on `envLinux` (memory key absent, so the
8 GB default applies). -/
def settingsLinux : RecommendedSettings :=
  ⟨"cpu", true, true, false, "pt", 1, "float32"⟩

/- ---------- Helper lemmas ---------- -/

/-- `get_optimal_device` never raises and equals its decision table. -/
theorem get_optimal_device_eq (o : AppleSiliconOptimizer) (env : Env)
    (prefer_mps : Bool) :
    get_optimal_device o env prefer_mps = .ok (deviceStr o env prefer_mps) := by
  unfold get_optimal_device deviceStr check_cuda_availability cudaAvail
  cases env.torch with
  | none =>
    by_cases h : (o.is_apple_silicon && prefer_mps && o.mps_available) = true
    · rw [if_pos h, if_pos h]
    · rw [if_neg h, if_neg h]
  | some t =>
    by_cases h : (o.is_apple_silicon && prefer_mps && o.mps_available) = true
    · rw [if_pos h, if_pos h]
    · rw [if_neg h, if_neg h]

/-- A successfully probed total of `n` GiB makes the dict lookup yield
`n`. -/
theorem dictGetTotalGb_of_total (mi : MemoryInfo) (n : Nat)
    (ht : mi.total_gb = some (some n)) : dictGetTotalGb mi = some n := by
  unfold dictGetTotalGb
  rw [ht]

/-- When the dict lookup with default yields the integer `n` (either a
successfully probed total, or the key-absent default `8`), the settings
record is fully determined. -/
theorem grs_of_totalOpt (o : AppleSiliconOptimizer) (env : Env)
    (mi : MemoryInfo) (n : Nat) (hmi : get_memory_info env = .ok mi)
    (ht : dictGetTotalGb mi = some n) :
    get_recommended_settings o env =
      .ok { device := deviceStr o env true
            offload_to_cpu := decide (n < 32)
            offload_dit_to_cpu := decide (n < 16)
            use_flash_attention := false
            backend := "pt"
            batch_size := min 4 (max 1 (n / 8))
            precision := if o.mps_available then "float16" else "float32" } := by
  unfold get_recommended_settings
  rw [hmi]
  simp [ht, pyLtNat, pyFloordivNat, get_optimal_device_eq]

/-- When the dict lookup yields Python `None` (a failed probe stored
`None` under the key), the comparison `total_gb < 32` raises
`TypeError`. -/
theorem grs_typeError (o : AppleSiliconOptimizer) (env : Env)
    (mi : MemoryInfo) (hmi : get_memory_info env = .ok mi)
    (ht : dictGetTotalGb mi = none) :
    get_recommended_settings o env = .error .typeError := by
  unfold get_recommended_settings
  rw [hmi]
  simp [ht, pyLtNat]

/-- `get_memory_info` failing outright propagates its exception. -/
theorem grs_of_memError (o : AppleSiliconOptimizer) (env : Env) (e : PyExc)
    (hmi : get_memory_info env = .error e) :
    get_recommended_settings o env = .error e := by
  unfold get_recommended_settings
  rw [hmi]

/-- The precision field of any returned settings record follows
`self.mps_available`. -/
theorem grs_precision (o : AppleSiliconOptimizer) (env : Env)
    (s : RecommendedSettings) (h : get_recommended_settings o env = .ok s) :
    s.precision = if o.mps_available then "float16" else "float32" := by
  cases hmi : get_memory_info env with
  | error e => rw [grs_of_memError o env e hmi] at h; simp at h
  | ok mi =>
    cases htot : dictGetTotalGb mi with
    | none => rw [grs_typeError o env mi hmi htot] at h; simp at h
    | some n =>
      rw [grs_of_totalOpt o env mi n hmi htot] at h
      injection h with h
      subst h
      rfl

/- ---------- Claims ---------- -/

/-- Claim C1 (refuted; the code contradicts the spec's no-raise contract):
on an Apple Silicon machine whose memory probe fails — here `psutil` is
absent — `get_recommended_settings` raises `TypeError` at
`total_gb < 32`: the failed probe stored `None` under the `"total_gb"`
key, so `memory_info.get("total_gb", 8)` returns `None`, not the default
`8`. -/
theorem c1_recommended_settings_raises_on_failed_probe :
    AppleSiliconOptimizer.init envDarwinNoPsutil = .ok ⟨true, true⟩ ∧
    get_memory_info envDarwinNoPsutil = .ok ⟨some none, some none⟩ ∧
    get_recommended_settings ⟨true, true⟩ envDarwinNoPsutil =
      .error .typeError :=
  ⟨rfl, rfl, rfl⟩

/-- Claim C2 (refuted in its second half): when the memory probe fails
(here the `hw.memsize` subprocess times out), `get_memory_info` does
report both fields as `None`, but `get_recommended_settings` then raises
`TypeError` instead of computing settings from the 8 GB default. -/
theorem c2_memory_probe_failure_behavior :
    AppleSiliconOptimizer.init envMemTimeout = .ok ⟨true, true⟩ ∧
    get_memory_info envMemTimeout = .ok ⟨some none, some none⟩ ∧
    get_recommended_settings ⟨true, true⟩ envMemTimeout = .error .typeError :=
  ⟨rfl, rfl, rfl⟩

/-- Claim C3, counterexample: on a non-Darwin host with the library
present and reporting CUDA, the secondary-backend check returns `true`,
not `false`, and it does consult the library. -/
theorem c3_counterexample :
    detect_apple_silicon envLinuxCuda = .ok false ∧
    check_cuda_availability envLinuxCuda = .ok true ∧
    envLinuxCuda.torch.isSome = true :=
  ⟨rfl, rfl, rfl⟩

/-- Claim C3 as amended: on a non-target OS the architecture probe is
false and the MPS check short-circuits to false without consulting the
optional library (its result is the same for every value of `torch`);
the CUDA check, however, is architecture-independent: it attempts the
library load and returns `false` only when the library is absent,
otherwise it returns whatever the library reports. -/
theorem c3_amended_nontarget_checks (env : Env)
    (h : ¬ env.system = "Darwin") :
    detect_apple_silicon env = .ok false ∧
    (∀ t, check_mps_availability { env with torch := t } false = .ok false) ∧
    (env.torch = none → check_cuda_availability env = .ok false) ∧
    (∀ t, env.torch = some t →
      check_cuda_availability env = .ok t.cudaIsAvailable) := by
  refine ⟨?_, ?_, ?_, ?_⟩
  · unfold detect_apple_silicon
    rw [if_pos h]
  · intro t
    rfl
  · intro ht
    unfold check_cuda_availability
    rw [ht]
  · intro t ht
    unfold check_cuda_availability
    rw [ht]

/-- Witness for the amended C3 at a concrete non-Darwin host without the
library. -/
theorem c3_amended_witness :
    detect_apple_silicon envLinux = .ok false ∧
    check_mps_availability envLinux false = .ok false ∧
    check_cuda_availability envLinux = .ok false := by
  have h := c3_amended_nontarget_checks envLinux (by decide)
  exact ⟨h.1, h.2.1 none, h.2.2.1 rfl⟩

/-- Claim C4: `get_optimal_device` follows the decision order "mps if
Apple Silicon and preferred and available, else cuda if available, else
cpu", and with `prefer_mps = false` it never returns "mps". -/
theorem c4_get_optimal_device_decision_order (o : AppleSiliconOptimizer)
    (env : Env) (prefer_mps : Bool) :
    get_optimal_device o env prefer_mps =
      .ok (if o.is_apple_silicon && prefer_mps && o.mps_available then "mps"
           else if cudaAvail env then "cuda" else "cpu") ∧
    (get_optimal_device o env false = .ok "cuda" ∨
     get_optimal_device o env false = .ok "cpu") := by
  constructor
  · exact get_optimal_device_eq o env prefer_mps
  · rw [get_optimal_device_eq o env false]
    unfold deviceStr
    cases hc : cudaAvail env with
    | true =>
      left
      simp [hc]
    | false =>
      right
      simp [hc]

/-- Claim C5: with a successfully probed total of `n` GiB,
`offload_to_cpu` holds iff `n < 32` and `offload_dit_to_cpu` holds iff
`n < 16` (so 32 GiB gives false / 31 true, 16 gives false / 15 true). -/
theorem c5_offload_thresholds (o : AppleSiliconOptimizer) (env : Env)
    (mi : MemoryInfo) (n : Nat) (hmi : get_memory_info env = .ok mi)
    (ht : mi.total_gb = some (some n)) :
    ∃ s, get_recommended_settings o env = .ok s ∧
      (s.offload_to_cpu = true ↔ n < 32) ∧
      (s.offload_dit_to_cpu = true ↔ n < 16) := by
  refine ⟨_, grs_of_totalOpt o env mi n hmi (dictGetTotalGb_of_total mi n ht),
    ?_, ?_⟩ <;> simp

/-- Witness for C5 at the 32 GiB boundary: both offload flags are
false. -/
theorem c5_offload_thresholds_witness :
    ∃ s, get_recommended_settings ⟨true, true⟩ env32 = .ok s ∧
      (s.offload_to_cpu = true ↔ 32 < 32) ∧
      (s.offload_dit_to_cpu = true ↔ 32 < 16) :=
  c5_offload_thresholds ⟨true, true⟩ env32 ⟨some (some 32), some (some 8)⟩ 32
    rfl rfl

/-- Claim C6: with a successfully probed total of `n` GiB, the batch size
is `n / 8` floored, clamped into `[1, 4]`. -/
theorem c6_batch_size_clamp (o : AppleSiliconOptimizer) (env : Env)
    (mi : MemoryInfo) (n : Nat) (hmi : get_memory_info env = .ok mi)
    (ht : mi.total_gb = some (some n)) :
    ∃ s, get_recommended_settings o env = .ok s ∧
      s.batch_size = min 4 (max 1 (n / 8)) ∧
      1 ≤ s.batch_size ∧ s.batch_size ≤ 4 := by
  refine ⟨_, grs_of_totalOpt o env mi n hmi (dictGetTotalGb_of_total mi n ht),
    rfl, ?_, ?_⟩
  · show 1 ≤ min 4 (max 1 (n / 8))
    omega
  · show min 4 (max 1 (n / 8)) ≤ 4
    omega

/-- Witness for C6 at 40 GiB: the batch size clamps to 4, not 5. -/
theorem c6_batch_size_clamp_witness :
    ∃ s, get_recommended_settings ⟨true, true⟩ env40 = .ok s ∧
      s.batch_size = min 4 (max 1 (40 / 8)) ∧
      1 ≤ s.batch_size ∧ s.batch_size ≤ 4 :=
  c6_batch_size_clamp ⟨true, true⟩ env40 ⟨some (some 40), some (some 8)⟩ 40
    rfl rfl

/-- Claim C7, counterexample: a non-zero-exit run of the brand-string
command can still yield `true` — `subprocess.run` is invoked without
`check=True`, so `CalledProcessError` is never raised and the captured
stdout is consulted whatever the exit status. -/
theorem c7_counterexample :
    detect_apple_silicon envBrandNonzeroExit = .ok true ∧
    envBrandNonzeroExit.brandStringProbe = .completed 1 "Apple M2 Pro" :=
  ⟨rfl, rfl⟩

/-- Claim C7 as amended: timeout and missing-binary outcomes of the
fallback command are treated as "not detected" and no exception
propagates; for a completed run the exit status is ignored and the result
is `true` iff the captured stdout, stripped and lowercased, contains the
vendor name. -/
theorem c7_amended_fallback (env : Env) (hs : env.system = "Darwin")
    (hm : ¬ pyLower env.machine = "arm64") :
    detect_apple_silicon env =
      .ok (match env.brandStringProbe with
           | .timeout => false
           | .fileNotFound => false
           | .completed _ out => pyInStr "apple" (pyLower (pyStrip out))) := by
  unfold detect_apple_silicon
  rw [if_neg (show ¬ env.system ≠ "Darwin" from fun hne => hne hs), if_neg hm]
  unfold detectBody
  cases env.brandStringProbe <;> rfl

/-- Witness for the amended C7: a timed-out brand-string command yields
`false` without raising. -/
theorem c7_amended_witness :
    detect_apple_silicon envBrandTimeout = .ok false :=
  c7_amended_fallback envBrandTimeout rfl (by decide)

/-- Claim C8: when Apple Silicon was not detected,
`apply_apple_silicon_optimizations` leaves the process environment
untouched. -/
theorem c8_apply_no_mutation (env : Env) (o : AppleSiliconOptimizer)
    (environ : Environ) (hdet : detect_apple_silicon env = .ok false)
    (ho : AppleSiliconOptimizer.init env = .ok o) :
    apply_apple_silicon_optimizations o env environ = environ := by
  have hinit : AppleSiliconOptimizer.init env = .ok ⟨false, false⟩ := by
    unfold AppleSiliconOptimizer.init
    rw [hdet]
    rfl
  rw [hinit] at ho
  injection ho with ho
  subst ho
  rfl

/-- Witness for C8 at a concrete non-Darwin host. -/
theorem c8_apply_no_mutation_witness :
    apply_apple_silicon_optimizations ⟨false, false⟩ envLinuxCuda
      (fun _ => none) = (fun _ => none) :=
  c8_apply_no_mutation envLinuxCuda ⟨false, false⟩ (fun _ => none) rfl rfl

/-- Claim C9: two successive `get_recommended_settings` calls on the same
instance under an unchanged external state return identical records, and
neither call mutates the instance. -/
theorem c9_settings_idempotent (o o1 o2 : AppleSiliconOptimizer) (env : Env)
    (s1 s2 : RecommendedSettings)
    (h1 : get_recommended_settings_call o env = .ok (s1, o1))
    (h2 : get_recommended_settings_call o1 env = .ok (s2, o2)) :
    s1 = s2 ∧ o1 = o ∧ o2 = o := by
  unfold get_recommended_settings_call at h1 h2
  cases hg : get_recommended_settings o env with
  | error e =>
    rw [hg] at h1
    exact absurd h1 (by simp)
  | ok s =>
    rw [hg] at h1
    replace h1 : Except.ok (s, o) = Except.ok (s1, o1) := h1
    injection h1 with h1
    injection h1 with hs ho
    subst hs
    subst ho
    rw [hg] at h2
    replace h2 : Except.ok (s, o) = Except.ok (s2, o2) := h2
    injection h2 with h2
    injection h2 with hs2 ho2
    exact ⟨hs2, rfl, ho2.symm⟩

/-- Witness for C9 on a concrete host (non-Darwin, memory key absent, so
the 8 GB default applies). -/
theorem c9_settings_idempotent_witness :
    settingsLinux = settingsLinux ∧
    (⟨false, false⟩ : AppleSiliconOptimizer) = ⟨false, false⟩ ∧
    (⟨false, false⟩ : AppleSiliconOptimizer) = ⟨false, false⟩ :=
  c9_settings_idempotent ⟨false, false⟩ ⟨false, false⟩ ⟨false, false⟩ envLinux
    settingsLinux settingsLinux rfl rfl

/-- Claim C10: for every constructed instance, `mps_available` implies
`is_apple_silicon`; the instance is never mutated by a settings call; and
a returned precision of "float16" can only happen on a detected Apple
Silicon machine. -/
theorem c10_mps_implies_apple_silicon (env : Env) (o : AppleSiliconOptimizer)
    (ho : AppleSiliconOptimizer.init env = .ok o) :
    (o.mps_available = true → o.is_apple_silicon = true) ∧
    (∀ env2 r, get_recommended_settings_call o env2 = .ok r → r.2 = o) ∧
    (∀ env2 s, get_recommended_settings o env2 = .ok s →
      s.precision = "float16" → o.is_apple_silicon = true) := by
  have hkey : o.mps_available = true → o.is_apple_silicon = true := by
    unfold AppleSiliconOptimizer.init at ho
    split at ho
    · exact absurd ho (by simp)
    · rename_i ias hdet2
      split at ho
      · exact absurd ho (by simp)
      · rename_i mps hmps2
        injection ho with ho
        subst ho
        cases ias with
        | false =>
          replace hmps2 : (Except.ok false : Except PyExc Bool) = .ok mps :=
            hmps2
          injection hmps2 with hmps2
          subst hmps2
          intro hfalse
          exact hfalse
        | true =>
          intro _
          rfl
  refine ⟨hkey, ?_, ?_⟩
  · intro env2 r hr
    unfold get_recommended_settings_call at hr
    cases hg : get_recommended_settings o env2 with
    | error e =>
      rw [hg] at hr
      exact absurd hr (by simp)
    | ok s =>
      rw [hg] at hr
      replace hr : Except.ok (s, o) = Except.ok r := hr
      injection hr with hr
      subst hr
      rfl
  · intro env2 s hs hprec
    have hp := grs_precision o env2 s hs
    rw [hprec] at hp
    cases hmps : o.mps_available with
    | false =>
      rw [hmps] at hp
      simp at hp
    | true => exact hkey hmps

/-- Witness for C10 on a concrete Apple Silicon host with MPS. -/
theorem c10_mps_implies_apple_silicon_witness :
    (⟨true, true⟩ : AppleSiliconOptimizer).is_apple_silicon = true ∧
    get_recommended_settings_call ⟨true, true⟩ env32 =
      .ok (⟨"mps", false, false, false, "pt", 4, "float16"⟩, ⟨true, true⟩) :=
  ⟨(c10_mps_implies_apple_silicon env32 ⟨true, true⟩ rfl).1 rfl, rfl⟩

end AppleSiliconOpt
